import Mathlib

/-!
Verification of the motor-actuation core of `drive.py` (line-follow).

The VESC motor controller (class `VESC`) and the `__main__` control loop are
shallowly embedded.  Floating-point values are modelled as exact rationals
(all arithmetic performed by the code is affine, so the spec's "exact"
equations are stated over ℚ).  Side effects on the serial transport and on
the display are modelled as explicit event traces.
-/

/-- A primitive operation sent to the VESC serial transport
(`pyvesc.VESC.set_servo` / `set_duty_cycle`). -/
inductive TransportOp
  | setServo (v : ℚ)
  | setDutyCycle (v : ℚ)
deriving DecidableEq, Repr

/-- The configuration state held by a constructed `VESC` object
(`self.steering_scale`, `self.steering_offset`, `self.percent` in
`VESC.__init__`, drive.py lines 56-58). -/
structure VESCState where
  steering_scale : ℚ
  steering_offset : ℚ
  percent : ℚ
deriving DecidableEq, Repr

/-- `VESC.run` (drive.py lines 69-71): sends
`set_servo(angle * steering_scale + steering_offset)` and then
`set_duty_cycle(throttle * percent)`.  It does not assign to any field, so
the state is returned unchanged together with the ordered list of transport
operations it issued. -/
def VESC.run (s : VESCState) (angle throttle : ℚ) : VESCState × List TransportOp :=
  (s, [TransportOp.setServo (angle * s.steering_scale + s.steering_offset),
       TransportOp.setDutyCycle (throttle * s.percent)])

/-- The payloads of the servo (steering) commands in a transport trace. -/
def servoCommands : List TransportOp → List ℚ
  | [] => []
  | TransportOp.setServo v :: rest => v :: servoCommands rest
  | TransportOp.setDutyCycle _ :: rest => servoCommands rest

/-- The payloads of the duty-cycle (power) commands in a transport trace. -/
def powerCommands : List TransportOp → List ℚ
  | [] => []
  | TransportOp.setDutyCycle v :: rest => v :: powerCommands rest
  | TransportOp.setServo _ :: rest => powerCommands rest

/-- Connection-level failure of opening the transport
(the exception raised by `pyvesc.VESC(serial_port, ...)`). -/
inductive ConnectError
  | Unreachable
  | PermissionDenied
deriving DecidableEq, Repr

/-- Failure of `VESC.__init__`: the `pyvesc` import failing (lines 44-53),
the `percent` range assert failing (line 55), or the transport open failing
(lines 60-67).  A connect error is re-raised unchanged (`raise`). -/
inductive InitError
  | importFailed
  | configOutOfRange
  | connect (e : ConnectError)
deriving DecidableEq, Repr

/-- The observable outcome of `VESC.__init__`: the result, how many times the
transport open (`pyvesc.VESC(...)`) was attempted, and the remediation
messages printed. -/
structure InitOut where
  result : Except InitError VESCState
  openAttempts : ℕ
  messages : List String
deriving Repr

/-- Remediation hint printed by `VESC.__init__` on an import failure
(drive.py line 50). -/
def pipHint : String :=
  "pip install git+https://github.com/LiamBindle/PyVESC.git@master"

/-- Remediation hint printed by `VESC.__init__` when the transport open
raises (drive.py line 65). -/
def chmodHint (serial_port : String) : String :=
  "sudo chmod a+rw " ++ serial_port

/-- `VESC.__init__` (drive.py lines 34-67).  `importOk` is the outcome of
`import pyvesc`; `topen` is the outcome of the single
`pyvesc.VESC(serial_port, ...)` call (the transport is an external
collaborator, so its outcome is a parameter).  The order of the source is
kept: import first, then the `percent` range assert, then field assignment,
then the transport open.  Out-of-range `percent` raises before the
transport open is ever attempted. -/
def VESC.init (importOk : Bool) (serial_port : String)
    (percent steering_scale steering_offset : ℚ)
    (topen : Except ConnectError Unit) : InitOut :=
  if importOk = false then
    ⟨Except.error InitError.importFailed, 0, [pipHint]⟩
  else if -1 ≤ percent ∧ percent ≤ 1 then
    match topen with
    | Except.ok _ =>
        ⟨Except.ok ⟨steering_scale, steering_offset, percent⟩, 1, []⟩
    | Except.error e =>
        ⟨Except.error (InitError.connect e), 1, [chmodHint serial_port]⟩
  else
    ⟨Except.error InitError.configOutOfRange, 0, []⟩

/-- An observable step of one iteration of the `__main__` streaming loop
(drive.py lines 93-109): acquiring a frame (`qRgb.get()`), invoking the
primary vision strategy (`toolbox.run_yellow_segmentation_pipeline`),
invoking the fallback strategy (`toolbox.run_lane_detection_pipeline`),
calling `vesc.run`, showing the blended debug view (`cv2.imshow`), and
polling the stop key (`cv2.waitKey`).  Overlays and steering lines are
abstract values (the vision pipelines are external collaborators). -/
inductive Event
  | acquire (frame : ℕ)
  | primaryCall (frame : ℕ)
  | fallbackCall (frame : ℕ)
  | runCall (angle throttle : ℚ)
  | render (frame overlay : ℕ)
  | pollStop
deriving DecidableEq, Repr

/-- The environment's behaviour for one loop iteration: the acquired frame
(and its width `frame.shape[1]`), the outcome of each vision strategy on
that frame (an overlay and an optional steering line, or an exception), and
the key code returned by `cv2.waitKey(1)` (`-1` when no key is pressed). -/
structure CycleInput where
  frame : ℕ
  width : ℕ
  primary : Except Unit (ℕ × Option ℕ)
  fallback : Except Unit (ℕ × Option ℕ)
  key : Int
deriving Repr

/-- The fixed throttle setpoint `THROTTLE = 0.15` (drive.py line 8). -/
def THROTTLE : ℚ := 15/100

/-- One iteration of the streaming loop body (drive.py lines 94-108),
parameterised by the external `toolbox.steering_command` function `sc`
(taking the optional steering line and the frame width).  Returns the
events of the iteration and either the boolean of the stop check
(`cv2.waitKey(1) == ord q`, key code 113) or an error when a vision
strategy raised.  The fallback strategy runs exactly when the primary
returned `steering_line is None`; an exception from a strategy propagates
out of the loop body at that point. -/
def cycle (sc : Option ℕ → ℕ → ℚ) (i : CycleInput) : List Event × Except Unit Bool :=
  match i.primary with
  | Except.error e =>
      ([Event.acquire i.frame, Event.primaryCall i.frame], Except.error e)
  | Except.ok (overlay, some line) =>
      ([Event.acquire i.frame, Event.primaryCall i.frame,
        Event.runCall (sc (some line) i.width) THROTTLE,
        Event.render i.frame overlay, Event.pollStop],
       Except.ok (i.key == 113))
  | Except.ok (_, none) =>
      match i.fallback with
      | Except.error e =>
          ([Event.acquire i.frame, Event.primaryCall i.frame,
            Event.fallbackCall i.frame], Except.error e)
      | Except.ok (overlay2, line2) =>
          ([Event.acquire i.frame, Event.primaryCall i.frame,
            Event.fallbackCall i.frame,
            Event.runCall (sc line2 i.width) THROTTLE,
            Event.render i.frame overlay2, Event.pollStop],
           Except.ok (i.key == 113))

/-- How the `while True` loop ended: the stop key broke out of it
(Terminated), a vision strategy raised (the exception aborts the process),
or the supplied finite environment trace ran out while still streaming. -/
inductive LoopOutcome
  | terminated
  | errored
  | streaming
deriving DecidableEq, Repr

/-- The streaming loop (drive.py lines 93-109) over a finite trace of
environment inputs: iterations run in order, and the loop stops early when
a cycle errors or when its stop check is true. -/
def controlLoop (sc : Option ℕ → ℕ → ℚ) : List CycleInput → List Event × LoopOutcome
  | [] => ([], LoopOutcome.streaming)
  | i :: rest =>
      match (cycle sc i).2 with
      | Except.error _ => ((cycle sc i).1, LoopOutcome.errored)
      | Except.ok stop =>
          if stop then ((cycle sc i).1, LoopOutcome.terminated)
          else
            ((cycle sc i).1 ++ (controlLoop sc rest).1, (controlLoop sc rest).2)

/-- Whether an event is a `vesc.run` call. -/
def isRun : Event → Bool
  | Event.runCall _ _ => true
  | _ => false

/-- Whether an event is a frame acquisition. -/
def isAcquire : Event → Bool
  | Event.acquire _ => true
  | _ => false

/-- Whether an event is a render of the debug view. -/
def isRender : Event → Bool
  | Event.render _ _ => true
  | _ => false

/-- C1: `VESC.run` sends exactly one servo command, equal to
`angle * steering_scale + steering_offset` with no clamping, for every
angle, scale and offset; in particular angle = 0.5, scale = 1, offset = 0.5
gives servo command 1, and angle = -0.5, scale = 1, offset = 0.5 gives
servo command 0. -/
theorem run_servo_command_exact (s : VESCState) (angle throttle : ℚ) :
    servoCommands (VESC.run s angle throttle).2
      = [angle * s.steering_scale + s.steering_offset] ∧
    servoCommands (VESC.run ⟨1, 1/2, 1/5⟩ (1/2) (3/20)).2 = [1] ∧
    servoCommands (VESC.run ⟨1, 1/2, 1/5⟩ (-(1/2)) (3/20)).2 = [0] := by
  refine ⟨rfl, ?_, ?_⟩ <;> simp [VESC.run, servoCommands] <;> norm_num

/-- C2: `VESC.run` sends exactly one power (duty-cycle) command, equal to
`throttle * percent`; and when both `throttle` and `percent` lie in
`[-1, 1]`, its absolute value is at most `|percent|`. -/
theorem run_power_command_bounded (s : VESCState) (angle throttle : ℚ)
    (ht : -1 ≤ throttle ∧ throttle ≤ 1)
    (hp : -1 ≤ s.percent ∧ s.percent ≤ 1) :
    powerCommands (VESC.run s angle throttle).2 = [throttle * s.percent] ∧
    |throttle * s.percent| ≤ |s.percent| := by
  constructor
  · rfl
  · have h1 : |throttle| ≤ 1 := abs_le.mpr ht
    calc |throttle * s.percent| = |throttle| * |s.percent| := abs_mul _ _
      _ ≤ 1 * |s.percent| := by
          exact mul_le_mul_of_nonneg_right h1 (abs_nonneg _)
      _ = |s.percent| := one_mul _

theorem run_power_command_bounded_witness :
    ((-1 : ℚ) ≤ 1 ∧ (1 : ℚ) ≤ 1) ∧ ((-1 : ℚ) ≤ 1/5 ∧ (1/5 : ℚ) ≤ 1) ∧
    (powerCommands (VESC.run ⟨1, 1/2, 1/5⟩ 0 1).2 = [1 * (1/5)] ∧
     |(1 : ℚ) * (1/5)| ≤ |(1/5 : ℚ)|) :=
  ⟨by norm_num, by norm_num,
   run_power_command_bounded ⟨1, 1/2, 1/5⟩ 0 1 (by norm_num) (by norm_num)⟩

/-- C9: every `VESC.run` call issues exactly two transport operations, the
servo command strictly first and the duty-cycle command second. -/
theorem run_two_ops_servo_first (s : VESCState) (angle throttle : ℚ) :
    (VESC.run s angle throttle).2
      = [TransportOp.setServo (angle * s.steering_scale + s.steering_offset),
         TransportOp.setDutyCycle (throttle * s.percent)] ∧
    (VESC.run s angle throttle).2.length = 2 :=
  ⟨rfl, rfl⟩

/-- C10: `VESC.run` never modifies the controller's configuration state:
the steering scale, steering offset and percent after the call equal their
values before, and only transport operations are emitted. -/
theorem run_preserves_config (s : VESCState) (angle throttle : ℚ) :
    (VESC.run s angle throttle).1 = s ∧
    (VESC.run s angle throttle).1.steering_scale = s.steering_scale ∧
    (VESC.run s angle throttle).1.steering_offset = s.steering_offset ∧
    (VESC.run s angle throttle).1.percent = s.percent :=
  ⟨rfl, rfl, rfl, rfl⟩

/-- C3: constructing a `VESC` with `percent` outside `[-1, 1]` fails with the
out-of-range configuration error and the transport open is never attempted;
`percent = 1.3` fails while both boundary values `-1` and `1` are accepted
(under a successful import and transport open). -/
theorem init_percent_range_checked (serial_port : String)
    (percent steering_scale steering_offset : ℚ)
    (topen : Except ConnectError Unit)
    (h : ¬ (-1 ≤ percent ∧ percent ≤ 1)) :
    ((VESC.init true serial_port percent steering_scale steering_offset
        topen).result = Except.error InitError.configOutOfRange ∧
     (VESC.init true serial_port percent steering_scale steering_offset
        topen).openAttempts = 0) ∧
    (VESC.init true "/dev/ttyACM0" (13/10) 1 0 (Except.ok ())).result
      = Except.error InitError.configOutOfRange ∧
    (VESC.init true "/dev/ttyACM0" (-1) 1 0 (Except.ok ())).result
      = Except.ok ⟨1, 0, -1⟩ ∧
    (VESC.init true "/dev/ttyACM0" 1 1 0 (Except.ok ())).result
      = Except.ok ⟨1, 0, 1⟩ := by
  refine ⟨⟨?_, ?_⟩, ?_, ?_, ?_⟩
  · simp [VESC.init, h]
  · simp [VESC.init, h]
  · norm_num [VESC.init]
  · norm_num [VESC.init]
  · norm_num [VESC.init]

theorem init_percent_range_checked_witness :
    ¬ ((-1 : ℚ) ≤ 13/10 ∧ (13/10 : ℚ) ≤ 1) ∧
    ((VESC.init true "/dev/ttyACM0" (13/10) 1 (1/2)
        (Except.ok ())).result = Except.error InitError.configOutOfRange ∧
     (VESC.init true "/dev/ttyACM0" (13/10) 1 (1/2)
        (Except.ok ())).openAttempts = 0) :=
  ⟨by norm_num,
   (init_percent_range_checked "/dev/ttyACM0" (13/10) 1 (1/2)
      (Except.ok ()) (by norm_num)).1⟩

/-- C8: with a valid configuration, a failure of the transport open makes
`VESC.__init__` fail with exactly that connection error (an unreachable
transport yields `Unreachable`, a refused one `PermissionDenied`, since the
original exception is re-raised unchanged); the printed remediation names
the required device-permission command for the given port, and the open is
attempted exactly once (no retry). -/
theorem init_connect_error_propagated (serial_port : String)
    (percent steering_scale steering_offset : ℚ) (e : ConnectError)
    (hp : -1 ≤ percent ∧ percent ≤ 1) :
    (VESC.init true serial_port percent steering_scale steering_offset
        (Except.error e)).result = Except.error (InitError.connect e) ∧
    ("sudo chmod a+rw " ++ serial_port)
      ∈ (VESC.init true serial_port percent steering_scale steering_offset
          (Except.error e)).messages ∧
    (VESC.init true serial_port percent steering_scale steering_offset
        (Except.error e)).openAttempts = 1 := by
  refine ⟨?_, ?_, ?_⟩ <;> simp [VESC.init, hp, chmodHint]

theorem init_connect_error_propagated_witness :
    ((-1 : ℚ) ≤ 1/5 ∧ (1/5 : ℚ) ≤ 1) ∧
    ((VESC.init true "/dev/ttyACM0" (1/5) 1 (1/2)
        (Except.error ConnectError.Unreachable)).result
      = Except.error (InitError.connect ConnectError.Unreachable) ∧
     ("sudo chmod a+rw " ++ "/dev/ttyACM0")
       ∈ (VESC.init true "/dev/ttyACM0" (1/5) 1 (1/2)
           (Except.error ConnectError.Unreachable)).messages ∧
     (VESC.init true "/dev/ttyACM0" (1/5) 1 (1/2)
        (Except.error ConnectError.Unreachable)).openAttempts = 1) :=
  ⟨by norm_num,
   init_connect_error_propagated "/dev/ttyACM0" (1/5) 1 (1/2)
     ConnectError.Unreachable (by norm_num)⟩

/-- Helper: the exact shape of the events of a successfully completing loop
iteration — with or without the fallback call, actuation always comes right
before the render and the stop poll. -/
theorem cycle_ok_shape (sc : Option ℕ → ℕ → ℚ) (i : CycleInput) (b : Bool)
    (h : (cycle sc i).2 = Except.ok b) :
    ∃ a overlay,
      (cycle sc i).1
        = [Event.acquire i.frame, Event.primaryCall i.frame,
           Event.runCall a THROTTLE, Event.render i.frame overlay,
           Event.pollStop] ∨
      (cycle sc i).1
        = [Event.acquire i.frame, Event.primaryCall i.frame,
           Event.fallbackCall i.frame, Event.runCall a THROTTLE,
           Event.render i.frame overlay, Event.pollStop] := by
  rcases hp : i.primary with e | ⟨overlay, line⟩
  · simp [cycle, hp] at h
  · rcases line with _ | l
    · rcases hf : i.fallback with e2 | ⟨overlay2, line2⟩
      · simp [cycle, hp, hf] at h
      · exact ⟨sc line2 i.width, overlay2, Or.inr (by simp [cycle, hp, hf])⟩
    · exact ⟨sc (some l) i.width, overlay, Or.inl (by simp [cycle, hp])⟩

/-- Helper: a successfully completing iteration issues exactly one
`vesc.run` call and exactly one frame acquisition. -/
theorem cycle_ok_counts (sc : Option ℕ → ℕ → ℚ) (i : CycleInput) (b : Bool)
    (h : (cycle sc i).2 = Except.ok b) :
    (cycle sc i).1.countP isRun = 1 ∧ (cycle sc i).1.countP isAcquire = 1 := by
  obtain ⟨a, ov, hsh | hsh⟩ := cycle_ok_shape sc i b h <;>
    simp [hsh, List.countP_cons, isRun, isAcquire]

/-- Helper: over any environment trace on which the loop does not abort on
a vision exception, the total number of `vesc.run` calls equals the total
number of acquired frames. -/
theorem loop_run_eq_acquire (sc : Option ℕ → ℕ → ℚ) (l : List CycleInput)
    (h : (controlLoop sc l).2 ≠ LoopOutcome.errored) :
    (controlLoop sc l).1.countP isRun
      = (controlLoop sc l).1.countP isAcquire := by
  induction l with
  | nil => simp [controlLoop]
  | cons i rest ih =>
    rcases hc : (cycle sc i).2 with e | stop
    · exact absurd (by simp [controlLoop, hc]) h
    · have hcounts := cycle_ok_counts sc i stop hc
      rcases stop with _ | _
      · have h2 : (controlLoop sc rest).2 ≠ LoopOutcome.errored := by
          intro hbad
          exact h (by simp [controlLoop, hc, hbad])
        simp [controlLoop, hc, List.countP_append, hcounts.1, hcounts.2,
          ih h2]
      · simp [controlLoop, hc, hcounts.1, hcounts.2]

/-- C4: the fallback vision strategy is invoked on a frame if and only if
the primary strategy returned an absent steering line on that frame; and
when the primary raises outright, the error propagates out of the cycle
without the fallback ever being invoked. -/
theorem fallback_iff_primary_absent (sc : Option ℕ → ℕ → ℚ)
    (i j : CycleInput) (hj : j.primary = Except.error ()) :
    (Event.fallbackCall i.frame ∈ (cycle sc i).1 ↔
      ∃ overlay, i.primary = Except.ok (overlay, none)) ∧
    ((cycle sc j).2 = Except.error () ∧
     Event.fallbackCall j.frame ∉ (cycle sc j).1) := by
  constructor
  · rcases hp : i.primary with e | ⟨ov, line⟩
    · simp [cycle, hp]
    · rcases line with _ | l
      · rcases hf : i.fallback with e2 | ⟨ov2, line2⟩ <;> simp [cycle, hp, hf]
      · simp [cycle, hp]
  · constructor <;> simp [cycle, hj]

theorem fallback_iff_primary_absent_witness :
    ((⟨3, 960, Except.error (), Except.ok (8, none), -1⟩ :
        CycleInput).primary = Except.error ()) ∧
    ((Event.fallbackCall 1
        ∈ (cycle (fun _ _ => 0)
            ⟨1, 960, Except.ok (7, some 3), Except.ok (8, none), -1⟩).1 ↔
      ∃ overlay,
        (⟨1, 960, Except.ok (7, some 3), Except.ok (8, none), -1⟩ :
          CycleInput).primary = Except.ok (overlay, none)) ∧
     ((cycle (fun _ _ => 0)
         ⟨3, 960, Except.error (), Except.ok (8, none), -1⟩).2
        = Except.error () ∧
      Event.fallbackCall 3
        ∉ (cycle (fun _ _ => 0)
            ⟨3, 960, Except.error (), Except.ok (8, none), -1⟩).1)) :=
  ⟨rfl,
   fallback_iff_primary_absent (fun _ _ => 0)
     ⟨1, 960, Except.ok (7, some 3), Except.ok (8, none), -1⟩
     ⟨3, 960, Except.error (), Except.ok (8, none), -1⟩ rfl⟩

/-- C5: during Streaming, exactly one `vesc.run` call occurs per acquired
frame: each completing iteration issues exactly one run call for its one
acquired frame, and over any trace on which the loop does not abort, the
total number of run calls equals the total number of acquired frames (no
batching or coalescing across frames). -/
theorem one_run_per_frame (sc : Option ℕ → ℕ → ℚ) (l : List CycleInput)
    (i : CycleInput) (b : Bool)
    (hl : (controlLoop sc l).2 ≠ LoopOutcome.errored)
    (hi : (cycle sc i).2 = Except.ok b) :
    (controlLoop sc l).1.countP isRun
      = (controlLoop sc l).1.countP isAcquire ∧
    (cycle sc i).1.countP isRun = 1 ∧
    (cycle sc i).1.countP isAcquire = 1 :=
  ⟨loop_run_eq_acquire sc l hl, cycle_ok_counts sc i b hi⟩

theorem one_run_per_frame_witness :
    ((controlLoop (fun _ _ => 0)
        [⟨1, 960, Except.ok (7, some 3), Except.ok (8, none), -1⟩,
         ⟨2, 960, Except.ok (7, some 3), Except.ok (8, none), 113⟩]).2
       ≠ LoopOutcome.errored) ∧
    ((cycle (fun _ _ => 0)
        ⟨1, 960, Except.ok (7, some 3), Except.ok (8, none), -1⟩).2
      = Except.ok false) ∧
    ((controlLoop (fun _ _ => 0)
        [⟨1, 960, Except.ok (7, some 3), Except.ok (8, none), -1⟩,
         ⟨2, 960, Except.ok (7, some 3), Except.ok (8, none), 113⟩]).1.countP
          isRun
       = (controlLoop (fun _ _ => 0)
           [⟨1, 960, Except.ok (7, some 3), Except.ok (8, none), -1⟩,
            ⟨2, 960, Except.ok (7, some 3), Except.ok (8, none), 113⟩]).1.countP
             isAcquire ∧
     (cycle (fun _ _ => 0)
        ⟨1, 960, Except.ok (7, some 3), Except.ok (8, none), -1⟩).1.countP
          isRun = 1 ∧
     (cycle (fun _ _ => 0)
        ⟨1, 960, Except.ok (7, some 3), Except.ok (8, none), -1⟩).1.countP
          isAcquire = 1) :=
  ⟨by decide, rfl,
   one_run_per_frame (fun _ _ => 0)
     [⟨1, 960, Except.ok (7, some 3), Except.ok (8, none), -1⟩,
      ⟨2, 960, Except.ok (7, some 3), Except.ok (8, none), 113⟩]
     ⟨1, 960, Except.ok (7, some 3), Except.ok (8, none), -1⟩ false
     (by decide) rfl⟩

/-- C6: if an iteration's stop check polls true, the loop stops right
there: the remaining environment trace is never consumed, so no `vesc.run`
call occurs on any later cycle, and the loop reaches the terminated
state. -/
theorem stop_terminates_loop (sc : Option ℕ → ℕ → ℚ) (i : CycleInput)
    (rest : List CycleInput) (h : (cycle sc i).2 = Except.ok true) :
    controlLoop sc (i :: rest) = ((cycle sc i).1, LoopOutcome.terminated) ∧
    (controlLoop sc (i :: rest)).1.countP isRun
      = (cycle sc i).1.countP isRun := by
  have h1 : controlLoop sc (i :: rest)
      = ((cycle sc i).1, LoopOutcome.terminated) := by
    simp [controlLoop, h]
  exact ⟨h1, by rw [h1]⟩

theorem stop_terminates_loop_witness :
    ((cycle (fun _ _ => 0)
        ⟨2, 960, Except.ok (7, some 3), Except.ok (8, none), 113⟩).2
      = Except.ok true) ∧
    (controlLoop (fun _ _ => 0)
        (⟨2, 960, Except.ok (7, some 3), Except.ok (8, none), 113⟩ ::
          [⟨1, 960, Except.ok (7, some 3), Except.ok (8, none), -1⟩])
      = ((cycle (fun _ _ => 0)
           ⟨2, 960, Except.ok (7, some 3), Except.ok (8, none), 113⟩).1,
         LoopOutcome.terminated) ∧
     (controlLoop (fun _ _ => 0)
        (⟨2, 960, Except.ok (7, some 3), Except.ok (8, none), 113⟩ ::
          [⟨1, 960, Except.ok (7, some 3), Except.ok (8, none), -1⟩])).1.countP
          isRun
       = (cycle (fun _ _ => 0)
           ⟨2, 960, Except.ok (7, some 3), Except.ok (8, none), 113⟩).1.countP
           isRun) :=
  ⟨rfl,
   stop_terminates_loop (fun _ _ => 0)
     ⟨2, 960, Except.ok (7, some 3), Except.ok (8, none), 113⟩
     [⟨1, 960, Except.ok (7, some 3), Except.ok (8, none), -1⟩] rfl⟩

/-- C7: within each completing iteration, the `vesc.run` call comes
strictly before the render of the debug view: the iteration's events split
as a prefix containing no run and no render, then the run call, then the
render, then the stop poll. -/
theorem run_before_render (sc : Option ℕ → ℕ → ℚ) (i : CycleInput)
    (b : Bool) (h : (cycle sc i).2 = Except.ok b) :
    ∃ p a overlay,
      (cycle sc i).1
        = p ++ [Event.runCall a THROTTLE, Event.render i.frame overlay,
                Event.pollStop] ∧
      ∀ e ∈ p, isRun e = false ∧ isRender e = false := by
  obtain ⟨a, ov, hsh | hsh⟩ := cycle_ok_shape sc i b h
  · exact ⟨[Event.acquire i.frame, Event.primaryCall i.frame], a, ov,
      by simp [hsh], by simp [isRun, isRender]⟩
  · exact ⟨[Event.acquire i.frame, Event.primaryCall i.frame,
      Event.fallbackCall i.frame], a, ov,
      by simp [hsh], by simp [isRun, isRender]⟩

theorem run_before_render_witness :
    ((cycle (fun _ _ => 0)
        ⟨1, 960, Except.ok (7, some 3), Except.ok (8, none), -1⟩).2
      = Except.ok false) ∧
    ∃ p a overlay,
      (cycle (fun _ _ => 0)
          ⟨1, 960, Except.ok (7, some 3), Except.ok (8, none), -1⟩).1
        = p ++ [Event.runCall a THROTTLE, Event.render 1 overlay,
                Event.pollStop] ∧
      ∀ e ∈ p, isRun e = false ∧ isRender e = false :=
  ⟨rfl,
   run_before_render (fun _ _ => 0)
     ⟨1, 960, Except.ok (7, some 3), Except.ok (8, none), -1⟩ false rfl⟩
